import Mathlib

/-!
# Verification of the Argument Clinic conversation engine

Shallow embedding of the session / state-machine core of the repository:

* `src/backend/src/services/argument_clinic_graph.py` — the conversation
  state machine (`ArgumentClinicContext`, the graph nodes `EntryNode`,
  `WaitForInput`, `ProcessUserInput`, `SimpleContradictionNode`,
  `ArgumentationNode`, `MetaCommentaryNode`, `ResolutionNode`).
* `src/backend/src/routes/websocket.py` — the per-session driver
  (`GraphSession.process_input` with its `is_processing` concurrency guard).

The three external AI collaborators (intent classifier, payment detector,
response generator) are opaque async services in the source; they are
modelled as oracle functions returning `Option` (`none` models the
collaborator raising an exception).  Python state mutation is modelled by
explicit state passing; an exception propagating out of a node carries the
state as mutated up to the raise point, hence node runs return
`Except ArgumentClinicContext (ArgumentClinicContext × Node)`.
-/

set_option autoImplicit false

namespace ArgumentClinic

/-- `UserIntent` enum from `argument_clinic_graph.py`. -/
inductive UserIntent where
  | ARGUMENTATIVE
  | TRANSACTIONAL
  | META
  | CONFUSED
deriving DecidableEq, Repr

/-- The `.value` of each `UserIntent` member (the Python enum is a `str` enum). -/
def UserIntent.value : UserIntent → String
  | .ARGUMENTATIVE => "argumentative"
  | .TRANSACTIONAL => "transactional"
  | .META => "meta"
  | .CONFUSED => "confused"

/-- `ArgumentClinicContext` dataclass: the per-session conversation state.
`arguer_messages` (a list of opaque `ModelMessage`s in the source) is modelled
as a list of strings, which is enough since the engine only ever appends the
generator's `new_messages()` to it and threads it back. -/
structure ArgumentClinicContext where
  session_id : String
  conversation_history : List String := []
  turn_count : Nat := 0
  last_response : String := ""
  user_frustration_level : Nat := 0
  payment_received : Bool := false
  current_input : Option String := none
  arguer_messages : List String := []
deriving DecidableEq, Repr

/-- The graph node tags (the source dispatches on node classes). -/
inductive Node where
  | EntryNode
  | WaitForInput
  | ProcessUserInput
  | SimpleContradictionNode
  | ArgumentationNode
  | MetaCommentaryNode
  | ResolutionNode
deriving DecidableEq, Repr

/-- `type(node).__name__`, as reported by `GraphSession.process_input`. -/
def nodeName : Node → String
  | .EntryNode => "EntryNode"
  | .WaitForInput => "WaitForInput"
  | .ProcessUserInput => "ProcessUserInput"
  | .SimpleContradictionNode => "SimpleContradictionNode"
  | .ArgumentationNode => "ArgumentationNode"
  | .MetaCommentaryNode => "MetaCommentaryNode"
  | .ResolutionNode => "ResolutionNode"

/-- The three external AI collaborators (intention agent, payment agent,
arguer agent).  `none` models the call raising an exception.  The arguer
returns `(result.data, result.new_messages())`. -/
structure Collaborators where
  intention : String → List String → Option UserIntent
  payment : String → Option Bool
  arguer : String → List String → Option (String × List String)

/-- `infer_user_intention`: builds a context from the input and the last 3
history entries (`conversation_history[-3:] if len(...) > 3 else ...`, which
always equals the last 3 entries) and asks the intention agent. -/
def infer_user_intention (c : Collaborators) (user_input : String)
    (conversation_history : List String) : Option UserIntent :=
  c.intention user_input
    (conversation_history.drop (conversation_history.length - 3))

/-- `did_user_pay`: asks the payment agent whether the input is a payment. -/
def did_user_pay (c : Collaborators) (user_input : String) : Option Bool :=
  c.payment user_input

/-- Result of executing one graph node: either the mutated state together
with the node returned (the next node to execute), or the state as mutated
up to the point where an exception was raised. -/
abbrev RunResult := Except ArgumentClinicContext (ArgumentClinicContext × Node)

/-- `EntryNode.run`: sets the greeting and returns `WaitForInput`. -/
def entryNode_run (ctx : ArgumentClinicContext) : ArgumentClinicContext × Node :=
  ({ ctx with last_response :=
      "Good morning! Welcome to the Argument Clinic. How may I help you today?" },
   Node.WaitForInput)

/-- `WaitForInput.run`: consumes `current_input` (raising `RuntimeError` when
none is pending), appends it to `conversation_history`, and continues to
`ProcessUserInput`. -/
def waitForInput_run (ctx : ArgumentClinicContext) : RunResult :=
  match ctx.current_input with
  | none => .error ctx
  | some user_input =>
      .ok ({ ctx with
              conversation_history := ctx.conversation_history ++ [user_input] },
           Node.ProcessUserInput)

/-- `"argument" in user_input.lower()` from `ProcessUserInput.run`. -/
def containsArgument (user_input : String) : Bool :=
  decide ("argument".toList <:+: user_input.toLower.toList)

/-- `ProcessUserInput.run`: infers the intention and routes.  Priority order
as in the source: `turn_count >= 8` goes to Resolution; then META with the
substring "argument" goes to MetaCommentary; then ARGUMENTATIVE increments
`user_frustration_level` and escalates to Argumentation when
`turn_count >= 3` and the post-increment frustration is `>= 3`, otherwise
SimpleContradiction; everything else falls through to SimpleContradiction. -/
def processUserInput_run (c : Collaborators) (ctx : ArgumentClinicContext) :
    RunResult :=
  match ctx.current_input with
  | none => .error ctx
  | some user_input =>
    match infer_user_intention c user_input ctx.conversation_history with
    | none => .error ctx
    | some user_intention =>
      if ctx.turn_count ≥ 8 then
        .ok (ctx, Node.ResolutionNode)
      else if user_intention = UserIntent.META && containsArgument user_input then
        .ok (ctx, Node.MetaCommentaryNode)
      else if user_intention = UserIntent.ARGUMENTATIVE then
        let ctx := { ctx with
          user_frustration_level := ctx.user_frustration_level + 1 }
        if ctx.turn_count ≥ 3 && ctx.user_frustration_level ≥ 3 then
          .ok (ctx, Node.ArgumentationNode)
        else
          .ok (ctx, Node.SimpleContradictionNode)
      else
        .ok (ctx, Node.SimpleContradictionNode)

/-- Prompt template of `SimpleContradictionNode.run`. -/
def simple_contradiction_prompt (intent_value user_input : String) : String :=
  "User intention: " ++ intent_value ++
  "\n\nIf ARGUMENTATIVE: Provide VERY simple contradictions." ++
  "\nIf TRANSACTIONAL: Handle their request appropriately." ++
  "\nIf META: Acknowledge their meta-comment but still contradict." ++
  "\nIf CONFUSED: Contradict but maybe explain a bit." ++
  "\n\nUser says: \"" ++ user_input ++ "\"" ++
  "\n\nRespond in character as Mr. Barnard, as concisely as possible."

/-- Prompt template of `ArgumentationNode.run`. -/
def argumentation_prompt (intent_value user_input : String) : String :=
  "User intention: " ++ intent_value ++
  "\n\nIf ARGUMENTATIVE: Provide sophisticated contradictory arguments." ++
  "\nIf TRANSACTIONAL: Handle their request appropriately." ++
  "\nIf META: Engage with their meta-discussion about arguing." ++
  "\nIf CONFUSED: Argue but provide some guidance." ++
  "\n\nUser says: \"" ++ user_input ++ "\"" ++
  "\n\nRespond in character as Mr. Barnard with a sophisticated argument."

/-- Prompt template of `MetaCommentaryNode.run`. -/
def meta_commentary_prompt (intent_value user_input : String) : String :=
  "User intention: " ++ intent_value ++
  "\n\nDiscuss what constitutes a proper argument." ++
  "\n\"An argument is a connected series of statements" ++
  " intended to establish a proposition!\"" ++
  "\nBe pedantic about the nature of arguing." ++
  "\n\nIf TRANSACTIONAL: Still be pedantic but handle their request." ++
  "\n\nUser says: \"" ++ user_input ++ "\"" ++
  "\n\nRespond in character as Mr. Barnard."

/-- Common body of the three response nodes: infer the intention again, call
the arguer agent with the node-specific prompt and the threaded
`arguer_messages`, then extend `arguer_messages`, set `last_response`,
increment `turn_count`, and return to `WaitForInput`. -/
def responseNode_run (c : Collaborators)
    (promptOf : String → String → String)
    (ctx : ArgumentClinicContext) : RunResult :=
  let user_input := ctx.current_input.getD ""
  match infer_user_intention c user_input ctx.conversation_history with
  | none => .error ctx
  | some user_intention =>
    let prompt := promptOf user_intention.value user_input
    match c.arguer prompt ctx.arguer_messages with
    | none => .error ctx
    | some (data, new_messages) =>
        .ok ({ ctx with
                arguer_messages := ctx.arguer_messages ++ new_messages,
                last_response := data,
                turn_count := ctx.turn_count + 1 },
             Node.WaitForInput)

/-- `SimpleContradictionNode.run`. -/
def simpleContradictionNode_run (c : Collaborators)
    (ctx : ArgumentClinicContext) : RunResult :=
  responseNode_run c simple_contradiction_prompt ctx

/-- `ArgumentationNode.run`. -/
def argumentationNode_run (c : Collaborators)
    (ctx : ArgumentClinicContext) : RunResult :=
  responseNode_run c argumentation_prompt ctx

/-- `MetaCommentaryNode.run`. -/
def metaCommentaryNode_run (c : Collaborators)
    (ctx : ArgumentClinicContext) : RunResult :=
  responseNode_run c meta_commentary_prompt ctx

/-- The fixed ordered list of 5 canned refusal strings of `ResolutionNode.run`. -/
def payment_refusal_responses : List String :=
  [ "I'm sorry, but I can't continue without payment. That's five pounds for the argument.",
    "No, no, no! Five pounds first, then we can argue!",
    "I'm afraid the argument stops here until you pay the five pounds.",
    "Payment first! Five pounds, please. Then we can resume our disagreement.",
    "I won't argue with you until you've paid! Five pounds!" ]

/-- Acceptance message of `ResolutionNode.run`. -/
def payment_acceptance_response : String :=
  "Ah, thank you! Right, where were we? Oh yes, you were wrong about everything!"

/-- The dead-branch fallback message of `ResolutionNode.run`. -/
def resolution_fallback_response : String :=
  "*DING!* I'm sorry, your time is up! That'll be five pounds please."

/-- `payment_detected` computation of `ResolutionNode.run`: it starts `False`
and the payment agent is consulted only for TRANSACTIONAL intent. -/
def resolution_payment_detected (c : Collaborators)
    (user_intention : UserIntent) (user_input : String) :
    Except Unit Bool :=
  if user_intention = UserIntent.TRANSACTIONAL then
    match did_user_pay c user_input with
    | none => .error ()
    | some b => .ok b
  else
    .ok false

/-- `ResolutionNode.run`: refuse to argue until paid.  When unpaid and no
payment is detected, pick a refusal by `len(conversation_history) % 5` and
stay (return `WaitForInput`); when payment was already received or is now
detected, set `payment_received`, reset the counters, and return to arguing
via `SimpleContradictionNode`; the trailing `else` is the source's fallback. -/
def resolutionNode_run (c : Collaborators) (ctx : ArgumentClinicContext) :
    RunResult :=
  let user_input := ctx.current_input.getD ""
  match infer_user_intention c user_input ctx.conversation_history with
  | none => .error ctx
  | some user_intention =>
    match resolution_payment_detected c user_intention user_input with
    | .error _ => .error ctx
    | .ok payment_detected =>
      if !ctx.payment_received && !payment_detected then
        let response_index := ctx.conversation_history.length % payment_refusal_responses.length
        let response := payment_refusal_responses.getD response_index ""
        .ok ({ ctx with last_response := response }, Node.WaitForInput)
      else if payment_detected || ctx.payment_received then
        .ok ({ ctx with
                payment_received := true,
                last_response := payment_acceptance_response,
                turn_count := 0,
                user_frustration_level := 0 },
             Node.SimpleContradictionNode)
      else
        .ok ({ ctx with last_response := resolution_fallback_response },
             Node.WaitForInput)

/-- Execute one graph node (one `GraphRun.next()` call). -/
def run_node (c : Collaborators) (node : Node) (ctx : ArgumentClinicContext) :
    RunResult :=
  match node with
  | .EntryNode => .ok (entryNode_run ctx)
  | .WaitForInput => waitForInput_run ctx
  | .ProcessUserInput => processUserInput_run c ctx
  | .SimpleContradictionNode => simpleContradictionNode_run c ctx
  | .ArgumentationNode => argumentationNode_run c ctx
  | .MetaCommentaryNode => metaCommentaryNode_run c ctx
  | .ResolutionNode => resolutionNode_run c ctx

/-- `GraphSession` from `websocket.py`: the per-session driver state.
`pending_node` models the graph runner's position (the node the next
`GraphRun.next()` call will execute); after `start_graph` it is
`WaitForInput`.  Wall-clock fields (`created_at`, timings) are not modelled. -/
structure GraphSession where
  session_id : String
  state : ArgumentClinicContext
  pending_node : Node
  is_processing : Bool
deriving DecidableEq, Repr

/-- `GraphSession.__init__`: fresh context, graph not yet started. -/
def GraphSession.init (session_id : String) : GraphSession :=
  { session_id := session_id
    state := { session_id := session_id }
    pending_node := Node.EntryNode
    is_processing := false }

/-- `GraphSession.start_graph`: executes `EntryNode`, leaving the runner
waiting at `WaitForInput`. -/
def GraphSession.start_graph (s : GraphSession) : GraphSession :=
  match entryNode_run s.state with
  | (st, n) => { s with state := st, pending_node := n }

/-- The fixed user-facing message of the concurrency guard. -/
def concurrency_rejection_message : String :=
  "Please wait for the current response to complete."

/-- Outcome of `GraphSession.process_input`: the concurrency rejection tuple
`("Please wait...", 0.0, "ConcurrencyError")`, a successful
`(response, node_name)` (elapsed wall-clock time is not modelled), or a
propagated exception. -/
inductive StepResult where
  | rejected (message : String) (node_name : String)
  | ok (response : String) (node_name : String)
  | err
deriving DecidableEq, Repr

/-- `GraphSession.process_input`: the per-session step.  If `is_processing`
is already set, return the rejection tuple without touching anything.
Otherwise set the flag, store the input in `current_input`, drive three
`GraphRun.next()` calls (normally `WaitForInput`, `ProcessUserInput`, then
the chosen response node), report the name of the node returned by the
second call, and clear the flag on every exit path (the `finally` block).
An exception from any node propagates after the flag is cleared, leaving
the session's state as mutated up to the raise point and the runner parked
at the node whose execution failed. -/
def GraphSession.process_input (c : Collaborators) (s : GraphSession)
    (user_input : String) : GraphSession × StepResult :=
  if s.is_processing then
    (s, .rejected concurrency_rejection_message "ConcurrencyError")
  else
    let st0 := { s.state with current_input := some user_input }
    match run_node c s.pending_node st0 with
    | .error e => ({ s with state := e, is_processing := false }, .err)
    | .ok (st1, n1) =>
      match run_node c n1 st1 with
      | .error e =>
          ({ s with state := e, pending_node := n1, is_processing := false },
           .err)
      | .ok (st2, n2) =>
        match run_node c n2 st2 with
        | .error e =>
            ({ s with state := e, pending_node := n2, is_processing := false },
             .err)
        | .ok (st3, n3) =>
            ({ s with state := st3, pending_node := n3, is_processing := false },
             .ok (if st3.last_response = "" then
                    "Good morning! Welcome to the Argument Clinic."
                  else st3.last_response)
                (nodeName n2))

/-! ### Concrete collaborator behaviours and sessions, used as witnesses -/

/-- A collaborator assignment whose classifier always returns `ι`, whose
payment detector never detects payment, and whose generator always answers. -/
def constantCollaborators (ι : UserIntent) : Collaborators :=
  { intention := fun _ _ => some ι
    payment := fun _ => some false
    arguer := fun _ _ => some ("No it isn't.", ["assistant-turn"]) }

/-- A collaborator assignment that classifies every input TRANSACTIONAL and
detects payment on every input. -/
def payingCollaborators : Collaborators :=
  { intention := fun _ _ => some UserIntent.TRANSACTIONAL
    payment := fun _ => some true
    arguer := fun _ _ => some ("No it isn't.", ["assistant-turn"]) }

/-- A collaborator assignment whose intent classifier raises. -/
def failingClassifierCollaborators : Collaborators :=
  { intention := fun _ _ => none
    payment := fun _ => some false
    arguer := fun _ _ => some ("No it isn't.", ["assistant-turn"]) }

/-- A context that has just been handed its ninth input with `turn_count = 8`. -/
def ctxTurn8 : ArgumentClinicContext :=
  { session_id := "w1"
    conversation_history := ["a", "b"]
    turn_count := 8
    current_input := some "The sky is green" }

/-- A context at `turn_count = 3`, `user_frustration_level = 2`, holding an
argumentative input. -/
def ctxEscalating : ArgumentClinicContext :=
  { session_id := "w2"
    conversation_history := ["a", "b", "c"]
    turn_count := 3
    user_frustration_level := 2
    current_input := some "That is not true" }

/-- A busy session (one step already in flight). -/
def busySession : GraphSession :=
  { session_id := "w3"
    state := { session_id := "w3", turn_count := 2 }
    pending_node := Node.ProcessUserInput
    is_processing := true }

/-- A context about to run Resolution on a paying input. -/
def ctxResolution : ArgumentClinicContext :=
  { session_id := "w4"
    conversation_history := ["a", "b", "c", "d", "e", "f", "g", "h", "i"]
    turn_count := 8
    user_frustration_level := 4
    current_input := some "Here is five pounds" }

/-- A context about to run Resolution on a non-paying input. -/
def ctxRefusal : ArgumentClinicContext :=
  { session_id := "w5"
    conversation_history := ["a", "b", "c", "d", "e", "f", "g", "h", "i"]
    turn_count := 8
    user_frustration_level := 4
    current_input := some "That is outrageous" }

/-- A session that has already paid. -/
def paidSession : GraphSession :=
  { session_id := "w6"
    state := { session_id := "w6", payment_received := true }
    pending_node := Node.WaitForInput
    is_processing := false }

/-- A session at the 8-turn payment gate, with eight prior inputs, waiting
for its ninth input. -/
def sessionAtGate : GraphSession :=
  { session_id := "w8"
    state := { session_id := "w8"
               conversation_history := ["a", "b", "c", "d", "e", "f", "g", "h"]
               turn_count := 8
               user_frustration_level := 4 }
    pending_node := Node.WaitForInput
    is_processing := false }

/-- A freshly created and started session. -/
def startedSession : GraphSession := (GraphSession.init "w7").start_graph

/-- The session left behind when the intent classifier raises on the first
input of `startedSession`: the input is already appended to the history. -/
def failedStepSession : GraphSession :=
  { session_id := "w7"
    state := { session_id := "w7"
               conversation_history := ["Hello"]
               last_response :=
                 "Good morning! Welcome to the Argument Clinic. How may I help you today?"
               current_input := some "Hello" }
    pending_node := Node.ProcessUserInput
    is_processing := false }

/-! ### Theorems -/

/-- C1: whenever `ProcessUserInput.run` evaluates its routing with
`turn_count ≥ 8`, the node it returns is `ResolutionNode` and the state is
left untouched — for every collaborator behaviour (hence every intent label)
and every input text. -/
theorem processUserInput_turn8_resolution (c : Collaborators)
    (ctx : ArgumentClinicContext) (r : ArgumentClinicContext × Node)
    (h8 : 8 ≤ ctx.turn_count)
    (hr : processUserInput_run c ctx = .ok r) :
    r = (ctx, Node.ResolutionNode) := by
  unfold processUserInput_run at hr
  cases hci : ctx.current_input with
  | none => simp [hci] at hr
  | some ui =>
    simp only [hci] at hr
    cases hint : infer_user_intention c ui ctx.conversation_history with
    | none => simp [hint] at hr
    | some uintent =>
      simp only [hint] at hr
      rw [if_pos h8] at hr
      injection hr with h
      exact h.symm

/-- Witness for C1 at a concrete session and classifier. -/
theorem processUserInput_turn8_resolution_witness :
    8 ≤ ctxTurn8.turn_count ∧
      ((ctxTurn8, Node.ResolutionNode) : ArgumentClinicContext × Node) =
        (ctxTurn8, Node.ResolutionNode) :=
  ⟨by decide,
   processUserInput_turn8_resolution
     (constantCollaborators UserIntent.ARGUMENTATIVE) ctxTurn8
     (ctxTurn8, Node.ResolutionNode) (by decide) rfl⟩

/-- C2: below the 8-turn gate, an ARGUMENTATIVE classification increments
`user_frustration_level` by exactly one, and the node is `ArgumentationNode`
exactly when `turn_count ≥ 3` and the post-increment frustration is `≥ 3`,
else `SimpleContradictionNode`. -/
theorem processUserInput_argumentative_routing (c : Collaborators)
    (ctx : ArgumentClinicContext) (ui : String)
    (hlt : ctx.turn_count < 8)
    (hci : ctx.current_input = some ui)
    (hint : infer_user_intention c ui ctx.conversation_history =
      some UserIntent.ARGUMENTATIVE) :
    processUserInput_run c ctx =
      .ok ({ ctx with
              user_frustration_level := ctx.user_frustration_level + 1 },
        if 3 ≤ ctx.turn_count ∧ 3 ≤ ctx.user_frustration_level + 1 then
          Node.ArgumentationNode
        else
          Node.SimpleContradictionNode) := by
  unfold processUserInput_run
  simp only [hci, hint]
  rw [if_neg (show ¬ ctx.turn_count ≥ 8 by omega)]
  simp [Bool.and_eq_true, decide_eq_true_eq]
  split <;> rfl

/-- Witness for C2 at `turn_count = 3`, `user_frustration_level = 2`. -/
theorem processUserInput_argumentative_routing_witness :
    ctxEscalating.turn_count < 8 ∧
      processUserInput_run (constantCollaborators UserIntent.ARGUMENTATIVE)
          ctxEscalating =
        .ok ({ ctxEscalating with
                user_frustration_level :=
                  ctxEscalating.user_frustration_level + 1 },
          if 3 ≤ ctxEscalating.turn_count ∧
              3 ≤ ctxEscalating.user_frustration_level + 1 then
            Node.ArgumentationNode
          else
            Node.SimpleContradictionNode) :=
  ⟨by decide,
   processUserInput_argumentative_routing
     (constantCollaborators UserIntent.ARGUMENTATIVE) ctxEscalating
     "That is not true" (by decide) rfl rfl⟩

/-- C6: a step attempted while `is_processing` is already set returns the
fixed rejection tuple at once and leaves the whole session — counters,
history, payment flag, pending node — unchanged. -/
theorem process_input_concurrency_rejection (c : Collaborators)
    (s : GraphSession) (u : String) (h : s.is_processing = true) :
    GraphSession.process_input c s u =
      (s, StepResult.rejected concurrency_rejection_message
        "ConcurrencyError") := by
  unfold GraphSession.process_input
  rw [h]
  simp

/-- Witness for C6 at a concrete busy session. -/
theorem process_input_concurrency_rejection_witness :
    busySession.is_processing = true ∧
      GraphSession.process_input (constantCollaborators UserIntent.CONFUSED)
          busySession "again" =
        (busySession,
         StepResult.rejected concurrency_rejection_message
           "ConcurrencyError") :=
  ⟨rfl,
   process_input_concurrency_rejection
     (constantCollaborators UserIntent.CONFUSED) busySession "again" rfl⟩

/-- Helper: every entry the refusal rotation can select differs from the
dead-branch fallback message and from the empty string. -/
theorem refusal_getD_facts (i : Nat) :
    payment_refusal_responses.getD (i % payment_refusal_responses.length) "" ≠
        resolution_fallback_response ∧
      payment_refusal_responses.getD (i % payment_refusal_responses.length) ""
        ≠ "" := by
  have h5 : i % payment_refusal_responses.length < 5 :=
    Nat.mod_lt _ (by decide)
  have hcases : i % payment_refusal_responses.length = 0 ∨
      i % payment_refusal_responses.length = 1 ∨
      i % payment_refusal_responses.length = 2 ∨
      i % payment_refusal_responses.length = 3 ∨
      i % payment_refusal_responses.length = 4 := by omega
  rcases hcases with h | h | h | h | h <;> rw [h] <;>
    exact ⟨by decide, by decide⟩

/-- C3: when the Resolution node runs with the payment flag already set or
with payment detected on the current input, it sets `payment_received`,
resets `turn_count` and `user_frustration_level` to 0, stores the acceptance
message, and hands over to `SimpleContradictionNode`, all in this one step. -/
theorem resolution_acceptance (c : Collaborators)
    (ctx : ArgumentClinicContext) (uintent : UserIntent) (pd : Bool)
    (hint : infer_user_intention c (ctx.current_input.getD "")
      ctx.conversation_history = some uintent)
    (hpd : resolution_payment_detected c uintent (ctx.current_input.getD "") =
      .ok pd)
    (hpaid : ctx.payment_received = true ∨ pd = true) :
    resolutionNode_run c ctx =
      .ok ({ ctx with
              payment_received := true,
              last_response := payment_acceptance_response,
              turn_count := 0,
              user_frustration_level := 0 },
        Node.SimpleContradictionNode) := by
  unfold resolutionNode_run
  simp only [hint, hpd]
  rcases hpaid with h | h <;> simp [h]

/-- Witness for C3 at a concrete paying step. -/
theorem resolution_acceptance_witness :
    (ctxResolution.payment_received = true ∨ true = true) ∧
      resolutionNode_run payingCollaborators ctxResolution =
        .ok ({ ctxResolution with
                payment_received := true,
                last_response := payment_acceptance_response,
                turn_count := 0,
                user_frustration_level := 0 },
          Node.SimpleContradictionNode) :=
  ⟨Or.inr rfl,
   resolution_acceptance payingCollaborators ctxResolution
     UserIntent.TRANSACTIONAL true rfl rfl (Or.inr rfl)⟩

/-- C4: when the Resolution node runs unpaid and with no payment detected,
the refusal is the fixed list entry at `history length mod 5`, the state is
otherwise untouched (in particular `payment_received` stays false), the node
is `WaitForInput`; and the rotation is stable: history lengths differing by
exactly 5 select the same refusal text. -/
theorem resolution_refusal_rotation (c : Collaborators)
    (ctx : ArgumentClinicContext) (uintent : UserIntent)
    (hint : infer_user_intention c (ctx.current_input.getD "")
      ctx.conversation_history = some uintent)
    (hpd : resolution_payment_detected c uintent (ctx.current_input.getD "") =
      .ok false)
    (hunpaid : ctx.payment_received = false) :
    resolutionNode_run c ctx =
      .ok ({ ctx with
              last_response := payment_refusal_responses.getD
                (ctx.conversation_history.length %
                  payment_refusal_responses.length) "" },
        Node.WaitForInput)
    ∧ ∀ m : Nat,
        payment_refusal_responses.getD ((m + 5) %
            payment_refusal_responses.length) "" =
          payment_refusal_responses.getD (m %
            payment_refusal_responses.length) "" := by
  constructor
  · unfold resolutionNode_run
    simp only [hint, hpd]
    simp [hunpaid]
  · intro m
    have h : (m + 5) % payment_refusal_responses.length =
        m % payment_refusal_responses.length := Nat.add_mod_right m 5
    rw [h]

/-- Witness for C4 at a concrete unpaid step (history length 9, index 4). -/
theorem resolution_refusal_rotation_witness :
    ctxRefusal.payment_received = false ∧
      (resolutionNode_run (constantCollaborators UserIntent.ARGUMENTATIVE)
          ctxRefusal =
        .ok ({ ctxRefusal with
                last_response := payment_refusal_responses.getD
                  (ctxRefusal.conversation_history.length %
                    payment_refusal_responses.length) "" },
          Node.WaitForInput)
      ∧ ∀ m : Nat,
          payment_refusal_responses.getD ((m + 5) %
              payment_refusal_responses.length) "" =
            payment_refusal_responses.getD (m %
              payment_refusal_responses.length) "") :=
  ⟨rfl,
   resolution_refusal_rotation (constantCollaborators UserIntent.ARGUMENTATIVE)
     ctxRefusal UserIntent.ARGUMENTATIVE rfl rfl rfl⟩

/-- C10: the two guarded branches of the Resolution node are exhaustive —
for every combination of the Booleans `payment_received` and
`payment_detected` one of them fires — so no successful run ever produces
the trailing fallback's DING message. -/
theorem resolution_branches_exhaustive :
    (∀ pr pd : Bool, (!pr && !pd) = true ∨ (pd || pr) = true) ∧
      ∀ (c : Collaborators) (ctx : ArgumentClinicContext)
        (r : ArgumentClinicContext × Node),
        resolutionNode_run c ctx = .ok r →
          r.1.last_response ≠ resolution_fallback_response := by
  constructor
  · decide
  · intro c ctx r hr
    unfold resolutionNode_run at hr
    cases hint : infer_user_intention c (ctx.current_input.getD "")
        ctx.conversation_history with
    | none => simp [hint] at hr
    | some uintent =>
      cases hpd : resolution_payment_detected c uintent
          (ctx.current_input.getD "") with
      | error e => simp [hint, hpd] at hr
      | ok pd =>
        cases hpr : ctx.payment_received <;> cases pd <;>
          simp [hint, hpd, hpr] at hr <;> subst hr
        · rw [show ((({ ctx with last_response := payment_refusal_responses[
              ctx.conversation_history.length %
                payment_refusal_responses.length]?.getD "" },
              Node.WaitForInput) :
              ArgumentClinicContext × Node).1.last_response) =
              payment_refusal_responses.getD
                (ctx.conversation_history.length %
                  payment_refusal_responses.length) "" from
            by rw [List.getD_eq_getElem?_getD]]
          exact (refusal_getD_facts ctx.conversation_history.length).1
        all_goals
          show payment_acceptance_response ≠ resolution_fallback_response
          decide

/-- Witness for C10: the refusal path of a concrete unpaid step indeed does
not produce the fallback message. -/
theorem resolution_branches_exhaustive_witness :
    (({ ctxRefusal with
          last_response := payment_refusal_responses.getD
            (ctxRefusal.conversation_history.length %
              payment_refusal_responses.length) "" },
        Node.WaitForInput) :
        ArgumentClinicContext × Node).1.last_response ≠
      resolution_fallback_response :=
  resolution_branches_exhaustive.2
    (constantCollaborators UserIntent.ARGUMENTATIVE) ctxRefusal _ rfl

/-- Helper: `WaitForInput.run` only raises before mutating anything. -/
theorem waitForInput_run_error (ctx e : ArgumentClinicContext)
    (h : waitForInput_run ctx = .error e) : e = ctx := by
  unfold waitForInput_run at h
  cases hci : ctx.current_input with
  | none => simp [hci] at h; exact h.symm
  | some u => simp [hci] at h

/-- Helper: `ProcessUserInput.run` only raises before mutating anything. -/
theorem processUserInput_run_error (c : Collaborators)
    (ctx e : ArgumentClinicContext)
    (h : processUserInput_run c ctx = .error e) : e = ctx := by
  unfold processUserInput_run at h
  cases hci : ctx.current_input with
  | none => simp [hci] at h; exact h.symm
  | some ui =>
    simp only [hci] at h
    cases hint : infer_user_intention c ui ctx.conversation_history with
    | none => simp [hint] at h; exact h.symm
    | some uintent =>
      simp only [hint] at h
      split at h
      · cases h
      · split at h
        · cases h
        · split at h
          · split at h
            · cases h
            · cases h
          · cases h

/-- Helper: the response-node body only raises before mutating anything. -/
theorem responseNode_run_error (c : Collaborators)
    (promptOf : String → String → String) (ctx e : ArgumentClinicContext)
    (h : responseNode_run c promptOf ctx = .error e) : e = ctx := by
  unfold responseNode_run at h
  cases hint : infer_user_intention c (ctx.current_input.getD "")
      ctx.conversation_history with
  | none => simp [hint] at h; exact h.symm
  | some uintent =>
    simp only [hint] at h
    cases harg : c.arguer (promptOf uintent.value (ctx.current_input.getD ""))
        ctx.arguer_messages with
    | none => simp [harg] at h; exact h.symm
    | some pr =>
      cases pr with
      | mk data new_messages => simp [harg] at h

/-- Helper: `ResolutionNode.run` only raises before mutating anything. -/
theorem resolutionNode_run_error (c : Collaborators)
    (ctx e : ArgumentClinicContext)
    (h : resolutionNode_run c ctx = .error e) : e = ctx := by
  unfold resolutionNode_run at h
  cases hint : infer_user_intention c (ctx.current_input.getD "")
      ctx.conversation_history with
  | none => simp [hint] at h; exact h.symm
  | some uintent =>
    simp only [hint] at h
    cases hpd : resolution_payment_detected c uintent
        (ctx.current_input.getD "") with
    | error u => simp [hint, hpd] at h; exact h.symm
    | ok pd =>
      simp only [hpd] at h
      split at h
      · cases h
      · split at h
        · cases h
        · cases h

/-- Helper: any node that raises leaves the state exactly as it received it. -/
theorem run_node_error (c : Collaborators) (node : Node)
    (ctx e : ArgumentClinicContext)
    (h : run_node c node ctx = .error e) : e = ctx := by
  cases node with
  | EntryNode => exact absurd h (by simp [run_node])
  | WaitForInput => exact waitForInput_run_error ctx e h
  | ProcessUserInput => exact processUserInput_run_error c ctx e h
  | SimpleContradictionNode => exact responseNode_run_error c _ ctx e h
  | ArgumentationNode => exact responseNode_run_error c _ ctx e h
  | MetaCommentaryNode => exact responseNode_run_error c _ ctx e h
  | ResolutionNode => exact resolutionNode_run_error c ctx e h

/-- Helper: a successful `ProcessUserInput.run` leaves the state unchanged or
only increments `user_frustration_level` by one. -/
theorem processUserInput_run_ok (c : Collaborators)
    (ctx : ArgumentClinicContext) (p : ArgumentClinicContext × Node)
    (h : processUserInput_run c ctx = .ok p) :
    p.1 = ctx ∨
      p.1 = { ctx with
        user_frustration_level := ctx.user_frustration_level + 1 } := by
  unfold processUserInput_run at h
  cases hci : ctx.current_input with
  | none => simp [hci] at h
  | some ui =>
    simp only [hci] at h
    cases hint : infer_user_intention c ui ctx.conversation_history with
    | none => simp [hint] at h
    | some uintent =>
      simp only [hint] at h
      split at h
      · injection h with h2; subst h2; exact Or.inl rfl
      · split at h
        · injection h with h2; subst h2; exact Or.inl rfl
        · split at h
          · split at h
            · injection h with h2; subst h2; exact Or.inr rfl
            · injection h with h2; subst h2; exact Or.inr rfl
          · injection h with h2; subst h2; exact Or.inl rfl

/-- Helper: a successful response node keeps history, frustration and the
payment flag, increments `turn_count` once, and returns `WaitForInput`. -/
theorem responseNode_run_ok (c : Collaborators)
    (promptOf : String → String → String) (ctx : ArgumentClinicContext)
    (p : ArgumentClinicContext × Node)
    (h : responseNode_run c promptOf ctx = .ok p) :
    p.1.payment_received = ctx.payment_received ∧
      p.1.turn_count = ctx.turn_count + 1 ∧
      p.1.conversation_history = ctx.conversation_history ∧
      p.1.user_frustration_level = ctx.user_frustration_level ∧
      p.2 = Node.WaitForInput := by
  unfold responseNode_run at h
  cases hint : infer_user_intention c (ctx.current_input.getD "")
      ctx.conversation_history with
  | none => simp [hint] at h
  | some uintent =>
    simp only [hint] at h
    cases harg : c.arguer (promptOf uintent.value (ctx.current_input.getD ""))
        ctx.arguer_messages with
    | none => simp [harg] at h
    | some pr =>
      cases pr with
      | mk data new_messages =>
        simp only [harg] at h
        injection h with h2
        subst h2
        exact ⟨rfl, rfl, rfl, rfl, rfl⟩

/-- Helper: a successful `ResolutionNode.run` either keeps the payment flag
or sets it to true, never clears it. -/
theorem resolutionNode_run_ok_payment (c : Collaborators)
    (ctx : ArgumentClinicContext) (p : ArgumentClinicContext × Node)
    (h : resolutionNode_run c ctx = .ok p) :
    p.1.payment_received = ctx.payment_received ∨
      p.1.payment_received = true := by
  unfold resolutionNode_run at h
  cases hint : infer_user_intention c (ctx.current_input.getD "")
      ctx.conversation_history with
  | none => simp [hint] at h
  | some uintent =>
    simp only [hint] at h
    cases hpd : resolution_payment_detected c uintent
        (ctx.current_input.getD "") with
    | error u => simp [hpd] at h
    | ok pd =>
      simp only [hpd] at h
      split at h
      · injection h with h2; subst h2; exact Or.inl rfl
      · split at h
        · injection h with h2; subst h2; exact Or.inr rfl
        · injection h with h2; subst h2; exact Or.inl rfl

/-- Helper: no node execution ever lowers the payment flag from true. -/
theorem run_node_payment_mono (c : Collaborators) (node : Node)
    (ctx : ArgumentClinicContext) (p : ArgumentClinicContext × Node)
    (h : run_node c node ctx = .ok p) :
    p.1.payment_received = ctx.payment_received ∨
      p.1.payment_received = true := by
  cases node with
  | EntryNode =>
    injection h with h2
    rw [← h2]
    exact Or.inl rfl
  | WaitForInput =>
    unfold run_node waitForInput_run at h
    cases hci : ctx.current_input with
    | none => simp [hci] at h
    | some u =>
      simp only [hci] at h
      injection h with h2
      subst h2
      exact Or.inl rfl
  | ProcessUserInput =>
    rcases processUserInput_run_ok c ctx p h with h2 | h2 <;>
      rw [h2] <;> exact Or.inl rfl
  | SimpleContradictionNode => exact Or.inl (responseNode_run_ok c _ ctx p h).1
  | ArgumentationNode => exact Or.inl (responseNode_run_ok c _ ctx p h).1
  | MetaCommentaryNode => exact Or.inl (responseNode_run_ok c _ ctx p h).1
  | ResolutionNode => exact resolutionNode_run_ok_payment c ctx p h

/-- C9: `payment_received` is monotone over a session's life: it is false at
session creation, `start_graph` does not change it, and no step — rejected,
successful, or aborted by a collaborator exception — ever takes it from true
back to false. -/
theorem payment_received_monotone :
    (∀ sid, (GraphSession.init sid).state.payment_received = false) ∧
      (∀ s, (GraphSession.start_graph s).state.payment_received =
        s.state.payment_received) ∧
      ∀ (c : Collaborators) (s : GraphSession) (u : String),
        s.state.payment_received = true →
          ((GraphSession.process_input c s u).1).state.payment_received =
            true := by
  refine ⟨fun _ => rfl, fun _ => rfl, ?_⟩
  intro c s u hpay
  unfold GraphSession.process_input
  by_cases hb : s.is_processing
  · simp [hb, hpay]
  · simp only [hb, if_false, Bool.false_eq_true]
    have h0 : ({ s.state with current_input := some u } :
        ArgumentClinicContext).payment_received = true := hpay
    cases hr1 : run_node c s.pending_node
        { s.state with current_input := some u } with
    | error e =>
      simp only [hr1]
      rw [run_node_error c _ _ _ hr1]
      exact h0
    | ok p1 =>
      cases p1 with
      | mk st1 n1 =>
        have h1 : st1.payment_received = true := by
          rcases run_node_payment_mono c _ _ _ hr1 with h | h
          · rw [h]; exact h0
          · exact h
        simp only [hr1]
        cases hr2 : run_node c n1 st1 with
        | error e =>
          simp only [hr2]
          rw [run_node_error c _ _ _ hr2]
          exact h1
        | ok p2 =>
          cases p2 with
          | mk st2 n2 =>
            have h2 : st2.payment_received = true := by
              rcases run_node_payment_mono c _ _ _ hr2 with h | h
              · rw [h]; exact h1
              · exact h
            simp only [hr2]
            cases hr3 : run_node c n2 st2 with
            | error e =>
              simp only [hr3]
              rw [run_node_error c _ _ _ hr3]
              exact h2
            | ok p3 =>
              cases p3 with
              | mk st3 n3 =>
                have h3 : st3.payment_received = true := by
                  rcases run_node_payment_mono c _ _ _ hr3 with h | h
                  · rw [h]; exact h2
                  · exact h
                simp only [hr3]
                exact h3

/-- Witness for C9: a fresh session starts unpaid, and a step on a paid
session leaves it paid. -/
theorem payment_received_monotone_witness :
    (GraphSession.init "w6").state.payment_received = false ∧
      ((GraphSession.process_input (constantCollaborators UserIntent.CONFUSED)
          paidSession "x").1).state.payment_received = true :=
  ⟨payment_received_monotone.1 "w6",
   payment_received_monotone.2.2 (constantCollaborators UserIntent.CONFUSED)
     paidSession "x" rfl⟩

/-- Helper: the `turn_count ≥ 8` routing equation, in equational form. -/
theorem processUserInput_run_turn8_eq (c : Collaborators)
    (ctx : ArgumentClinicContext) (ui : String) (uintent : UserIntent)
    (hci : ctx.current_input = some ui)
    (hint : infer_user_intention c ui ctx.conversation_history = some uintent)
    (h8 : ctx.turn_count ≥ 8) :
    processUserInput_run c ctx = .ok (ctx, Node.ResolutionNode) := by
  unfold processUserInput_run
  simp only [hci, hint]
  rw [if_pos h8]

/-- Helper: the unpaid/undetected refusal equation of `ResolutionNode.run`,
in equational form. -/
theorem resolutionNode_run_refusal_eq (c : Collaborators)
    (ctx : ArgumentClinicContext) (uintent : UserIntent)
    (hint : infer_user_intention c (ctx.current_input.getD "")
      ctx.conversation_history = some uintent)
    (hpd : resolution_payment_detected c uintent (ctx.current_input.getD "") =
      .ok false)
    (hunpaid : ctx.payment_received = false) :
    resolutionNode_run c ctx =
      .ok ({ ctx with
              last_response := payment_refusal_responses.getD
                (ctx.conversation_history.length %
                  payment_refusal_responses.length) "" },
        Node.WaitForInput) := by
  unfold resolutionNode_run
  simp only [hint, hpd]
  simp [hunpaid]

/-- C5 counterexample: when the intent classifier raises on the very first
input, the propagated step leaves the appended input in
`conversation_history`, so the session state is not the pre-step state. -/
theorem collaborator_failure_mutates_history :
    (GraphSession.process_input failingClassifierCollaborators startedSession
        "Hello").2 = StepResult.err
    ∧ ((GraphSession.process_input failingClassifierCollaborators
        startedSession "Hello").1).state.conversation_history = ["Hello"]
    ∧ startedSession.state.conversation_history = [] :=
  ⟨rfl, rfl, rfl⟩

/-- C5 (amended): when a collaborator raises during a step taken from
`WaitForInput`, the propagated exception leaves `turn_count`,
`payment_received` and `last_response` unchanged — in particular no partial
turn increment is applied — but the input has already been appended to
`conversation_history`, and `user_frustration_level` is either unchanged or
already incremented by one (when the failure happened after ARGUMENTATIVE
routing); the `is_processing` flag is cleared on this exit path. -/
theorem collaborator_failure_partial_state (c : Collaborators)
    (s : GraphSession) (u : String) (s' : GraphSession)
    (hb : s.is_processing = false)
    (hp : s.pending_node = Node.WaitForInput)
    (h : GraphSession.process_input c s u = (s', StepResult.err)) :
    s'.state.turn_count = s.state.turn_count ∧
      s'.state.payment_received = s.state.payment_received ∧
      s'.state.last_response = s.state.last_response ∧
      s'.state.conversation_history = s.state.conversation_history ++ [u] ∧
      (s'.state.user_frustration_level = s.state.user_frustration_level ∨
        s'.state.user_frustration_level =
          s.state.user_frustration_level + 1) ∧
      s'.is_processing = false := by
  unfold GraphSession.process_input at h
  rw [hp] at h
  simp only [hb, Bool.false_eq_true, if_false] at h
  have hstep1 : run_node c Node.WaitForInput
      { s.state with current_input := some u } =
      .ok ({ s.state with
              current_input := some u,
              conversation_history := s.state.conversation_history ++ [u] },
        Node.ProcessUserInput) := rfl
  simp only [hstep1] at h
  cases hr2 : run_node c Node.ProcessUserInput
      { s.state with
        current_input := some u,
        conversation_history := s.state.conversation_history ++ [u] } with
  | error e =>
    simp only [hr2, Prod.mk.injEq] at h
    obtain ⟨h1, -⟩ := h
    subst h1
    have he : e = { s.state with
        current_input := some u,
        conversation_history := s.state.conversation_history ++ [u] } :=
      processUserInput_run_error c _ e hr2
    subst he
    exact ⟨rfl, rfl, rfl, rfl, Or.inl rfl, rfl⟩
  | ok p2 =>
    cases p2 with
    | mk st2 n2 =>
      simp only [hr2] at h
      cases hr3 : run_node c n2 st2 with
      | error e =>
        simp only [hr3, Prod.mk.injEq] at h
        obtain ⟨h1, -⟩ := h
        subst h1
        have he : e = st2 := run_node_error c n2 st2 e hr3
        subst he
        rcases processUserInput_run_ok c
            { s.state with
              current_input := some u,
              conversation_history := s.state.conversation_history ++ [u] }
            (e, n2) hr2 with h2 | h2 <;> rw [show e = _ from h2]
        · exact ⟨rfl, rfl, rfl, rfl, Or.inl rfl, rfl⟩
        · exact ⟨rfl, rfl, rfl, rfl, Or.inr rfl, rfl⟩
      | ok p3 =>
        cases p3 with
        | mk st3 n3 =>
          simp only [hr3, Prod.mk.injEq] at h
          obtain ⟨-, h2⟩ := h
          cases h2

/-- Witness for C5 (amended), at the concrete failing first step. -/
theorem collaborator_failure_partial_state_witness :
    failedStepSession.state.turn_count = startedSession.state.turn_count ∧
      failedStepSession.state.payment_received =
        startedSession.state.payment_received ∧
      failedStepSession.state.last_response =
        startedSession.state.last_response ∧
      failedStepSession.state.conversation_history =
        startedSession.state.conversation_history ++ ["Hello"] ∧
      (failedStepSession.state.user_frustration_level =
          startedSession.state.user_frustration_level ∨
        failedStepSession.state.user_frustration_level =
          startedSession.state.user_frustration_level + 1) ∧
      failedStepSession.is_processing = false :=
  collaborator_failure_partial_state failingClassifierCollaborators
    startedSession "Hello" failedStepSession rfl rfl rfl

/-- C7: the payment-acceptance step does NOT leave `WaitForInput` pending:
the third `next()` executes `ResolutionNode`, which returns
`SimpleContradictionNode`, and that node is what remains pending for the
session — contradicting the driver's own `# Back to WaitForInput` comment
(and the claim) on this path. -/
theorem payment_step_not_ending_at_waitForInput :
    ((GraphSession.process_input payingCollaborators sessionAtGate
        "Here is five pounds").1).pending_node = Node.SimpleContradictionNode
    ∧ (GraphSession.process_input payingCollaborators sessionAtGate
        "Here is five pounds").2 =
      StepResult.ok payment_acceptance_response "ResolutionNode"
    ∧ Node.SimpleContradictionNode ≠ Node.WaitForInput :=
  ⟨rfl, rfl, by decide⟩

/-- C8 counterexample: for the canonical session with `turn_count = 8` after
eight prior inputs, the step routes to Resolution but the refusal text is
the list entry at index 4 (history length 9 mod 5), which differs from the
entry at index 3 that the claim demands. -/
theorem turn8_refusal_index_counterexample :
    (GraphSession.process_input (constantCollaborators UserIntent.CONFUSED)
        sessionAtGate "More arguing").2 =
      StepResult.ok (payment_refusal_responses.getD 4 "") "ResolutionNode"
    ∧ payment_refusal_responses.getD 4 "" ≠
        payment_refusal_responses.getD 3 "" :=
  ⟨rfl, by decide⟩

/-- C8 (amended): a step taken from `WaitForInput` with `turn_count = 8`,
unpaid and with no payment detected, reports node `ResolutionNode` and
produces the refusal at index `(historyLength + 1) mod 5`, the history
length after the current input is appended — index 4, not 3, when the 8
turns produced exactly 8 prior history entries. -/
theorem turn8_refusal_rotation (c : Collaborators) (s : GraphSession)
    (u : String) (uintent : UserIntent)
    (hb : s.is_processing = false)
    (hp : s.pending_node = Node.WaitForInput)
    (h8 : s.state.turn_count = 8)
    (hunpaid : s.state.payment_received = false)
    (hint : infer_user_intention c u
      (s.state.conversation_history ++ [u]) = some uintent)
    (hpd : resolution_payment_detected c uintent u = .ok false) :
    (GraphSession.process_input c s u).2 =
      StepResult.ok
        (payment_refusal_responses.getD
          ((s.state.conversation_history.length + 1) %
            payment_refusal_responses.length) "")
        "ResolutionNode"
    ∧ ((GraphSession.process_input c s u).1).pending_node =
        Node.WaitForInput := by
  unfold GraphSession.process_input
  rw [hp]
  simp only [hb, Bool.false_eq_true, if_false]
  have hstep1 : run_node c Node.WaitForInput
      { s.state with current_input := some u } =
      .ok ({ s.state with
              current_input := some u,
              conversation_history := s.state.conversation_history ++ [u] },
        Node.ProcessUserInput) := rfl
  simp only [hstep1]
  have hstep2 : run_node c Node.ProcessUserInput
      { s.state with
        current_input := some u,
        conversation_history := s.state.conversation_history ++ [u] } =
      .ok ({ s.state with
              current_input := some u,
              conversation_history := s.state.conversation_history ++ [u] },
        Node.ResolutionNode) :=
    processUserInput_run_turn8_eq c
      { s.state with
        current_input := some u,
        conversation_history := s.state.conversation_history ++ [u] }
      u uintent rfl hint (le_of_eq h8.symm)
  simp only [hstep2]
  have hstep3 : run_node c Node.ResolutionNode
      { s.state with
        current_input := some u,
        conversation_history := s.state.conversation_history ++ [u] } =
      .ok ({ s.state with
              current_input := some u,
              conversation_history := s.state.conversation_history ++ [u],
              last_response := payment_refusal_responses.getD
                ((s.state.conversation_history ++ [u]).length %
                  payment_refusal_responses.length) "" },
        Node.WaitForInput) :=
    resolutionNode_run_refusal_eq c
      { s.state with
        current_input := some u,
        conversation_history := s.state.conversation_history ++ [u] }
      uintent hint hpd hunpaid
  simp only [hstep3]
  have hlen : (s.state.conversation_history ++ [u]).length =
      s.state.conversation_history.length + 1 := by
    simp
  simp only [hlen]
  rw [if_neg
    ((refusal_getD_facts (s.state.conversation_history.length + 1)).2)]
  exact ⟨rfl, trivial⟩

/-- Witness for C8 (amended) at the canonical 8-turn, 8-input session. -/
theorem turn8_refusal_rotation_witness :
    ((GraphSession.process_input (constantCollaborators UserIntent.CONFUSED)
        sessionAtGate "More arguing").2 =
      StepResult.ok
        (payment_refusal_responses.getD
          ((sessionAtGate.state.conversation_history.length + 1) %
            payment_refusal_responses.length) "")
        "ResolutionNode")
    ∧ ((GraphSession.process_input (constantCollaborators UserIntent.CONFUSED)
        sessionAtGate "More arguing").1).pending_node = Node.WaitForInput :=
  turn8_refusal_rotation (constantCollaborators UserIntent.CONFUSED)
    sessionAtGate "More arguing" UserIntent.CONFUSED rfl rfl rfl rfl rfl rfl

end ArgumentClinic
